import Mathlib

/-!
Shallow embedding of the mixpanel-react-native validation/normalization layer
(src/index.js). Each facade method is modelled as a pure function from its
arguments to `Except String DelegateCall`: a thrown `Error(msg)` becomes
`.error msg`, and a successful forward to the native module
`MixpanelReactNative.<method>(a1, ..., an)` becomes
`.ok ⟨"<method>", [a1, ..., an]⟩`.

JavaScript runtime values are modelled by `JSValue`; JS numbers by `JSNum`
(NaN, the two infinities, and finite values as rationals). Objects are
association lists in insertion order, which is how JS objects enumerate.
-/

/-- A JavaScript number: NaN, +Infinity, -Infinity, or a finite value. -/
inductive JSNum where
  | nan : JSNum
  | posInf : JSNum
  | negInf : JSNum
  | finite (q : ℚ) : JSNum
deriving DecidableEq

/-- A JavaScript runtime value. Objects and arrays carry their entries in
insertion order; object keys in source programs are distinct. -/
inductive JSValue where
  | undefined : JSValue
  | null : JSValue
  | bool (b : Bool) : JSValue
  | num (n : JSNum) : JSValue
  | str (s : String) : JSValue
  | arr (elems : List JSValue) : JSValue
  | obj (fields : List (String × JSValue)) : JSValue

/-- A call on the native delegate `MixpanelReactNative`: the method name and
the positional argument list. -/
structure DelegateCall where
  method : String
  args : List JSValue

/-- JS `typeof`. `typeof null` is "object", as is `typeof` of any array. -/
def typeOf : JSValue → String
  | .undefined => "undefined"
  | .null => "object"
  | .bool _ => "boolean"
  | .num _ => "number"
  | .str _ => "string"
  | .arr _ => "object"
  | .obj _ => "object"

/-- JS truthiness: `undefined`, `null`, `false`, `NaN`, `0` and `""` are
falsy; every other value is truthy. -/
def truthy : JSValue → Bool
  | .undefined => false
  | .null => false
  | .bool b => b
  | .num JSNum.nan => false
  | .num (JSNum.finite q) => decide (q ≠ 0)
  | .num _ => true
  | .str s => decide (s ≠ "")
  | .arr _ => true
  | .obj _ => true

/-- JS `a || b`. -/
def jsOr (a b : JSValue) : JSValue := if truthy a then a else b

/-- JS `Array.isArray`. -/
def isArray : JSValue → Bool
  | .arr _ => true
  | _ => false

/-- Characters matched by the JS whitespace class `\s` (the ones that occur
in practice; the full class also contains rarer Unicode space characters). -/
def isJsWhitespaceChar (c : Char) : Bool :=
  c = ' ' || c = '\t' || c = '\n' || c = '\r' || c = '\x0b' || c = '\x0c' || c = ' '

/-- Value of a list of decimal digit characters. -/
def natOfDigits (ds : List Char) : Nat :=
  ds.foldl (fun a c => 10 * a + (c.toNat - 48)) 0

/-- Decimal exponent after the `e`/`E` of a JS number literal: an optional
sign and then digits. If no digit follows, the exponent part is not part of
the parsed number (`parseFloat("1e") = 1`), so it contributes `0`. -/
def expOf (rest : List Char) : Int :=
  let (sgn, ds0) : Int × List Char :=
    match rest with
    | '+' :: r => (1, r)
    | '-' :: r => (-1, r)
    | _ => (1, rest)
  let ds := ds0.takeWhile Char.isDigit
  if ds = [] then 0 else sgn * (natOfDigits ds : Int)

/-- JS `parseFloat` on a string: skip leading whitespace, read an optional
sign, then either the literal `Infinity` or the longest decimal literal
prefix (digits, optional fraction, optional exponent). If no digit is found
the result is NaN. -/
def parseFloatString (s : String) : JSNum :=
  let t := s.toList.dropWhile fun c => isJsWhitespaceChar c
  let (sgn, r) : Int × List Char :=
    match t with
    | '+' :: r => (1, r)
    | '-' :: r => (-1, r)
    | _ => (1, t)
  if ("Infinity".toList).isPrefixOf r then
    if sgn = 1 then JSNum.posInf else JSNum.negInf
  else
    let intDigits := r.takeWhile Char.isDigit
    let r1 := r.dropWhile Char.isDigit
    let (fracDigits, r2) : List Char × List Char :=
      match r1 with
      | '.' :: rest => (rest.takeWhile Char.isDigit, rest.dropWhile Char.isDigit)
      | _ => ([], r1)
    if intDigits = [] ∧ fracDigits = [] then JSNum.nan
    else
      let expVal : Int :=
        match r2 with
        | 'e' :: rest => expOf rest
        | 'E' :: rest => expOf rest
        | _ => 0
      let mant : ℚ :=
        (natOfDigits intDigits : ℚ) + (natOfDigits fracDigits : ℚ) / ((10 : ℚ) ^ fracDigits.length)
      JSNum.finite ((sgn : ℚ) * mant * (10 : ℚ) ^ expVal)

/-- JS `parseFloat(v)`: `v` is converted to a string and the longest numeric
prefix is parsed. A number's string form parses back to the number itself.
`undefined`, `null`, booleans and plain objects stringify to the words
`undefined` / `null` / `true` / `false` / `[object Object]`, none of which
starts a number, so they parse to NaN. An array stringifies to its elements'
strings joined by commas; since a comma can neither start nor continue a
numeric literal, the parse of the array's string equals the parse of its
first element (and the empty array stringifies to `""`, giving NaN). -/
def parseFloat : JSValue → JSNum
  | .num n => n
  | .str s => parseFloatString s
  | .arr [] => JSNum.nan
  | .arr (v :: _) => parseFloat v
  | _ => JSNum.nan

/-- JS `isNaN` applied to an already-numeric value. -/
def JSNum.isNaN : JSNum → Bool
  | .nan => true
  | _ => false

/-- Finiteness of a JS number (`Number.isFinite` on a number). -/
def JSNum.isFinite : JSNum → Bool
  | .finite _ => true
  | _ => false

/-- Whether a runtime value is a finite number (`Number.isFinite`). -/
def isFiniteNumber : JSValue → Bool
  | .num n => n.isFinite
  | _ => false

/-- One branch of `JSON.parse(JSON.stringify(v))`, returning the value that
survives the round trip, or `none` when `JSON.stringify` would drop the
value entirely (only `undefined` here; functions and symbols do not occur in
this model). NaN and the infinities serialize to `null`; object entries
whose value is dropped are omitted; dropped array elements become `null`. -/
def jsonStringifyValue : JSValue → Option JSValue
  | .undefined => none
  | .null => some .null
  | .bool b => some (.bool b)
  | .num (JSNum.finite q) => some (.num (JSNum.finite q))
  | .num _ => some .null
  | .str s => some (.str s)
  | .arr xs => some (.arr (jsonStringifyElems xs))
  | .obj fs => some (.obj (jsonStringifyFields fs))
where
  /-- Array elements: a dropped element serializes as `null`. -/
  jsonStringifyElems : List JSValue → List JSValue
    | [] => []
    | x :: rest => (jsonStringifyValue x).getD .null :: jsonStringifyElems rest
  /-- Object entries: a dropped value omits the entry. -/
  jsonStringifyFields : List (String × JSValue) → List (String × JSValue)
    | [] => []
    | (k, v) :: rest =>
      match jsonStringifyValue v with
      | some w => (k, w) :: jsonStringifyFields rest
      | none => jsonStringifyFields rest

/-- JS `JSON.parse(JSON.stringify(v))`, the deep-copy idiom used by the
facade. Callers in the source apply it to `prop || {}`, never to a
top-level `undefined` (where `JSON.parse` would throw), so the `getD`
default is unreachable. -/
def jsonRoundTrip (v : JSValue) : JSValue :=
  (jsonStringifyValue v).getD .undefined

/-- Property-key coercion for `o[k] = v`. In the source this is only
reached after `StringHelper.isValid` has ensured a string key. -/
def JSValue.asKey : JSValue → String
  | .str s => s
  | _ => ""

example : parseFloat (.str "abc") = JSNum.nan := by decide
example : (parseFloat (.str "12abc")).isNaN = false := by decide
example : (parseFloat (.str "  9.99 ")).isNaN = false := by decide
example : parseFloat (.str "-Infinity") = JSNum.negInf := by decide
example : (parseFloat (.str "1e2")).isNaN = false := by decide
example : parseFloat (.num JSNum.posInf) = JSNum.posInf := by decide
example : parseFloat .undefined = JSNum.nan := by decide
example : jsonRoundTrip (.obj [("a", .undefined), ("b", .num JSNum.nan)]) = .obj [("b", .null)] := by rfl

/-! ## Constants of the source (`ERROR_MESSAGE`, `PARAMS`, platform table) -/

def ERROR_MESSAGE.INVALID_OBJECT : String := " is not a valid json object"

def ERROR_MESSAGE.INVALID_STRING : String := " is not a valid string"

def ERROR_MESSAGE.REQUIRED_DOUBLE : String := " is not a valid number"

def PARAMS.TOKEN : String := "token"

def PARAMS.DISTINCT_ID : String := "distinctId"

def PARAMS.ALIAS : String := "alias"

def PARAMS.EVENT_NAME : String := "eventName"

def PARAMS.GROUP_KEY : String := "groupKey"

def PARAMS.PROPERTIES : String := "properties"

def PARAMS.PROPERTY_NAME : String := "propertyName"

def PARAMS.PROP : String := "prop"

def PARAMS.NAME : String := "name"

def PARAMS.CHARGE : String := "charge"

def PARAMS.PROPERTY_VALUE : String := "property value"

/-- The `DevicePlatform` table of the source. -/
inductive DevicePlatform where
  | Unknown : DevicePlatform
  | Android : DevicePlatform
  | iOS : DevicePlatform
deriving DecidableEq

/-! ## Validation helpers (`StringHelper`, `ObjectHelper`, `Helper`) -/

/-- `StringHelper.isValid`: the value is of string type and the regex
`^\s*$` does not match it, i.e. it is not empty and not all-whitespace. -/
def StringHelper.isValid (str : JSValue) : Bool :=
  match str with
  | .str s => !(s.toList.all isJsWhitespaceChar)
  | _ => false

/-- `StringHelper.isValidOrUndefined`. -/
def StringHelper.isValidOrUndefined (str : JSValue) : Bool :=
  match str with
  | .undefined => true
  | v => StringHelper.isValid v

/-- `StringHelper.raiseError`: `throw new Error(paramName + " is not a valid
string")`, modelled as the error outcome at any result type. -/
def StringHelper.raiseError {α : Type} (paramName : String) : Except String α :=
  .error (paramName ++ ERROR_MESSAGE.INVALID_STRING)

/-- `ObjectHelper.isValid`: `typeof obj === "object"` (true for `null`,
arrays and plain objects). -/
def ObjectHelper.isValid (obj : JSValue) : Bool :=
  typeOf obj = "object"

/-- `ObjectHelper.isValidOrUndefined`. -/
def ObjectHelper.isValidOrUndefined (obj : JSValue) : Bool :=
  match obj with
  | .undefined => true
  | v => ObjectHelper.isValid v

/-- `ObjectHelper.raiseError`: `throw new Error(paramName + " is not a valid
json object")`. -/
def ObjectHelper.raiseError {α : Type} (paramName : String) : Except String α :=
  .error (paramName ++ ERROR_MESSAGE.INVALID_OBJECT)

/-- `Helper.getDevicePlatform`: dispatch on `Platform.OS`. -/
def Helper.getDevicePlatform (os : String) : DevicePlatform :=
  match os with
  | "android" => DevicePlatform.Android
  | "ios" => DevicePlatform.iOS
  | _ => DevicePlatform.Unknown

/-! ## Association-list operations for JS objects

`lookupKey l k` is property read `l[k]` (first — and in a well-formed JS
object only — entry with key `k`). `setKey l k v` is property write
`l[k] = v`: an existing key keeps its position and gets the new value, a
fresh key is appended. `spreadMerge a b` is the object spread
`{...a, ...b}`. -/

def lookupKey : List (String × JSValue) → String → Option JSValue
  | [], _ => none
  | (k', v') :: rest, k => if k' = k then some v' else lookupKey rest k

def setKey : List (String × JSValue) → String → JSValue → List (String × JSValue)
  | [], k, v => [(k, v)]
  | (k', v') :: rest, k, v =>
      if k' = k then (k', v) :: rest else (k', v') :: setKey rest k v

def spreadMerge (a b : List (String × JSValue)) : List (String × JSValue) :=
  b.foldl (fun acc kv => setKey acc kv.1 kv.2) a

/-- `Helper.getMetaData`: deep-copy the package metadata object and set the
fixed key `$lib_version` to the package version. The package data itself
lives outside the source tree and is passed in as an argument. -/
def Helper.getMetaData (packageMetadata : List (String × JSValue))
    (packageVersion : JSValue) : List (String × JSValue) :=
  setKey (jsonStringifyValue.jsonStringifyFields packageMetadata) "$lib_version" packageVersion

/-- `Object.keys(prop)` paired with the values read back in the
`forEach`-style loops of the source. On `null` the coercion `ToObject`
throws a TypeError; an array enumerates its index keys; a plain object
enumerates its entries in insertion order. The remaining cases are
unreachable in the source (always guarded by `ObjectHelper.isValid`). -/
def jsObjectEntries : JSValue → Except String (List (String × JSValue))
  | .null => .error "TypeError: Cannot convert undefined or null to object"
  | .arr xs => .ok (xs.enum.map fun p => (toString p.1, p.2))
  | .obj fields => .ok fields
  | _ => .ok []

/-! ## The `Mixpanel` facade -/

/-- `Mixpanel.init`: merge environment metadata with the caller's super
properties (spread order: metadata first, then super properties) and call
`initialize(token, optOutTrackingDefault, merged)`. -/
def Mixpanel.init (token : String) (optOutTrackingDefault : JSValue)
    (superProperties packageMetadata : List (String × JSValue))
    (packageVersion : JSValue) : DelegateCall :=
  let metadata := Helper.getMetaData packageMetadata packageVersion
  ⟨"initialize", [.str token, optOutTrackingDefault, .obj (spreadMerge metadata superProperties)]⟩

/-- `Mixpanel.identify`. -/
def Mixpanel.identify (token : String) (distinctId : JSValue) : Except String DelegateCall :=
  if !StringHelper.isValid distinctId then
    StringHelper.raiseError PARAMS.DISTINCT_ID
  else
    .ok ⟨"identify", [.str token, distinctId]⟩

/-- `Mixpanel.track`: a missing/falsy property bag is normalized to `{}`. -/
def Mixpanel.track (token : String) (eventName properties : JSValue) : Except String DelegateCall :=
  if !StringHelper.isValid eventName then
    StringHelper.raiseError PARAMS.EVENT_NAME
  else if !ObjectHelper.isValidOrUndefined properties then
    ObjectHelper.raiseError PARAMS.PROPERTIES
  else
    .ok ⟨"track", [.str token, eventName, jsOr properties (.obj [])]⟩

/-- `Mixpanel.trackWithGroups`: `properties` is normalized with `|| {}`;
`groups` is forwarded exactly as given. -/
def Mixpanel.trackWithGroups (token : String) (eventName properties groups : JSValue) :
    Except String DelegateCall :=
  if !StringHelper.isValid eventName then
    StringHelper.raiseError PARAMS.EVENT_NAME
  else if !ObjectHelper.isValidOrUndefined properties then
    ObjectHelper.raiseError PARAMS.PROPERTIES
  else
    .ok ⟨"trackWithGroups", [.str token, eventName, jsOr properties (.obj []), groups]⟩

/-- `Mixpanel.registerSuperProperties`. -/
def Mixpanel.registerSuperProperties (token : String) (properties : JSValue) :
    Except String DelegateCall :=
  if !ObjectHelper.isValidOrUndefined properties then
    ObjectHelper.raiseError PARAMS.PROPERTIES
  else
    .ok ⟨"registerSuperProperties", [.str token, jsOr properties (.obj [])]⟩

/-- `Mixpanel.registerSuperPropertiesOnce`. -/
def Mixpanel.registerSuperPropertiesOnce (token : String) (properties : JSValue) :
    Except String DelegateCall :=
  if !ObjectHelper.isValidOrUndefined properties then
    ObjectHelper.raiseError PARAMS.PROPERTIES
  else
    .ok ⟨"registerSuperPropertiesOnce", [.str token, jsOr properties (.obj [])]⟩

/-! ## The `People` facade -/

/-- `People.set`: object-typed `prop` is deep-copied (after `prop || {}`)
and `to'` is ignored; a valid string `prop` yields the bag `{prop: to'}`
(`to` of the source is written `to'`, `to` being reserved in Lean);
anything else raises. -/
def People.set (token : String) (prop to' : JSValue) : Except String DelegateCall :=
  if ObjectHelper.isValid prop then
    .ok ⟨"set", [.str token, jsonRoundTrip (jsOr prop (.obj []))]⟩
  else if !StringHelper.isValid prop then
    StringHelper.raiseError PARAMS.PROP
  else
    .ok ⟨"set", [.str token, .obj [(prop.asKey, to')]]⟩

/-- `People.setOnce`: same bag computation as `People.set` (the source
reassigns `prop = prop || {}` before the deep copy). -/
def People.setOnce (token : String) (prop to' : JSValue) : Except String DelegateCall :=
  if ObjectHelper.isValid prop then
    .ok ⟨"setOnce", [.str token, jsonRoundTrip (jsOr prop (.obj []))]⟩
  else if !StringHelper.isValid prop then
    StringHelper.raiseError PARAMS.PROP
  else
    .ok ⟨"setOnce", [.str token, .obj [(prop.asKey, to')]]⟩

/-- The `forEach` loop of `People.increment`'s object branch: walk the
entries in order, throwing on the first value whose `parseFloat` is NaN,
otherwise accumulating `add[key] = val`. -/
def incrementFold (acc : List (String × JSValue)) :
    List (String × JSValue) → Except String (List (String × JSValue))
  | [] => .ok acc
  | (key, val) :: rest =>
      if (parseFloat val).isNaN then
        .error (PARAMS.PROPERTY_VALUE ++ ERROR_MESSAGE.REQUIRED_DOUBLE)
      else
        incrementFold (acc ++ [(key, val)]) rest

/-- `People.increment`: polymorphic. Object-typed `prop` has each value
checked with `isNaN(parseFloat(val))` and forwarded as-is; otherwise
`by' || 1` is checked the same way and the bag `{prop: by'}` is built
(`by` of the source is written `by'`, `by` being reserved in Lean). -/
def People.increment (token : String) (prop by' : JSValue) : Except String DelegateCall :=
  if ObjectHelper.isValid prop then
    match jsObjectEntries prop with
    | .error e => .error e
    | .ok entries =>
      match incrementFold [] entries with
      | .error e => .error e
      | .ok add => .ok ⟨"increment", [.str token, .obj add]⟩
  else
    let by1 := jsOr by' (.num (JSNum.finite 1))
    if (parseFloat by1).isNaN then
      .error (PARAMS.PROPERTY_VALUE ++ ERROR_MESSAGE.REQUIRED_DOUBLE)
    else if !StringHelper.isValid prop then
      StringHelper.raiseError PARAMS.NAME
    else
      .ok ⟨"increment", [.str token, .obj [(prop.asKey, by1)]]⟩

/-- `People.append`: platform-conditional packing — on iOS the single map
`{name: value}`, elsewhere the pair `(name, value)`. -/
def People.append (token os : String) (name value : JSValue) : Except String DelegateCall :=
  if !StringHelper.isValid name then
    StringHelper.raiseError PARAMS.NAME
  else if Helper.getDevicePlatform os = DevicePlatform.iOS then
    .ok ⟨"append", [.str token, .obj [(name.asKey, value)]]⟩
  else
    .ok ⟨"append", [.str token, name, value]⟩

/-- The ternary `Array.isArray(value) ? value : [value]` of the source. -/
def arrayWrap (value : JSValue) : JSValue :=
  if isArray value then value else .arr [value]

/-- `People.union`: `value` is normalized to an array, then the same
platform-conditional packing as `append`. -/
def People.union (token os : String) (name value : JSValue) : Except String DelegateCall :=
  if !StringHelper.isValid name then
    StringHelper.raiseError PARAMS.NAME
  else
    let value1 := arrayWrap value
    if Helper.getDevicePlatform os = DevicePlatform.iOS then
      .ok ⟨"union", [.str token, .obj [(name.asKey, value1)]]⟩
    else
      .ok ⟨"union", [.str token, name, value1]⟩

/-- `People.remove`: platform-conditional packing as in `append`. -/
def People.remove (token os : String) (name value : JSValue) : Except String DelegateCall :=
  if !StringHelper.isValid name then
    StringHelper.raiseError PARAMS.NAME
  else if Helper.getDevicePlatform os = DevicePlatform.iOS then
    .ok ⟨"remove", [.str token, .obj [(name.asKey, value)]]⟩
  else
    .ok ⟨"remove", [.str token, name, value]⟩

/-- `People.trackCharge`: `charge` must pass `!isNaN(parseFloat(charge))`,
the optional bag is normalized with `|| {}`, and the original `charge`
value is forwarded. -/
def People.trackCharge (token : String) (charge properties : JSValue) :
    Except String DelegateCall :=
  if (parseFloat charge).isNaN then
    .error (PARAMS.CHARGE ++ ERROR_MESSAGE.REQUIRED_DOUBLE)
  else if !ObjectHelper.isValidOrUndefined properties then
    ObjectHelper.raiseError PARAMS.PROPERTIES
  else
    .ok ⟨"trackCharge", [.str token, charge, jsOr properties (.obj [])]⟩

/-! ## The `MixpanelGroup` facade -/

/-- `MixpanelGroup.set`: same polymorphic bag resolution as `People.set`,
forwarded as `groupSetProperties(token, groupKey, groupID, bag)`. -/
def MixpanelGroup.set (token : String) (groupKey groupID prop to' : JSValue) :
    Except String DelegateCall :=
  if ObjectHelper.isValid prop then
    .ok ⟨"groupSetProperties", [.str token, groupKey, groupID, jsonRoundTrip (jsOr prop (.obj []))]⟩
  else if !StringHelper.isValid prop then
    StringHelper.raiseError PARAMS.PROP
  else
    .ok ⟨"groupSetProperties", [.str token, groupKey, groupID, .obj [(prop.asKey, to')]]⟩

/-- `MixpanelGroup.setOnce`: as `set`, via `groupSetPropertyOnce`. -/
def MixpanelGroup.setOnce (token : String) (groupKey groupID prop to' : JSValue) :
    Except String DelegateCall :=
  if ObjectHelper.isValid prop then
    .ok ⟨"groupSetPropertyOnce", [.str token, groupKey, groupID, jsonRoundTrip (jsOr prop (.obj []))]⟩
  else if !StringHelper.isValid prop then
    StringHelper.raiseError PARAMS.PROP
  else
    .ok ⟨"groupSetPropertyOnce", [.str token, groupKey, groupID, .obj [(prop.asKey, to')]]⟩

/-- `MixpanelGroup.remove`: one fixed five-argument shape, no platform
dispatch. -/
def MixpanelGroup.remove (token : String) (groupKey groupID name value : JSValue) :
    Except String DelegateCall :=
  if !StringHelper.isValid name then
    StringHelper.raiseError PARAMS.PROPERTY_NAME
  else
    .ok ⟨"groupRemovePropertyValue", [.str token, groupKey, groupID, name, value]⟩

/-- `MixpanelGroup.union`: `value` normalized to an array, one fixed
five-argument shape, no platform dispatch. -/
def MixpanelGroup.union (token : String) (groupKey groupID name value : JSValue) :
    Except String DelegateCall :=
  if !StringHelper.isValid name then
    StringHelper.raiseError PARAMS.PROPERTY_NAME
  else
    .ok ⟨"groupUnionProperty", [.str token, groupKey, groupID, name, arrayWrap value]⟩

/-! ## Lemmas about object writes, spreads and the increment loop -/

theorem lookupKey_setKey_self (l : List (String × JSValue)) (k : String) (v : JSValue) :
    lookupKey (setKey l k v) k = some v := by
  induction l with
  | nil => simp [setKey, lookupKey]
  | cons hd tl ih =>
    obtain ⟨k', v'⟩ := hd
    by_cases h : k' = k
    · subst h
      simp [setKey, lookupKey]
    · simp [setKey, lookupKey, h, ih]

theorem lookupKey_setKey_ne (l : List (String × JSValue)) (k k' : String) (v : JSValue)
    (h : k ≠ k') : lookupKey (setKey l k v) k' = lookupKey l k' := by
  induction l with
  | nil => simp [setKey, lookupKey, h]
  | cons hd tl ih =>
    obtain ⟨a, b⟩ := hd
    by_cases ha : a = k
    · subst ha
      simp [setKey, lookupKey, h]
    · simp [setKey, lookupKey, ha, ih]

theorem lookupKey_spreadMerge_of_not_mem (b : List (String × JSValue)) :
    ∀ (a : List (String × JSValue)) (k : String), k ∉ b.map Prod.fst →
    lookupKey (spreadMerge a b) k = lookupKey a k := by
  induction b with
  | nil => intro a k _; rfl
  | cons hd tl ih =>
    intro a k hk
    rw [show spreadMerge a (hd :: tl) = spreadMerge (setKey a hd.1 hd.2) tl from rfl]
    simp only [List.map_cons, List.mem_cons, not_or] at hk
    rw [ih _ k hk.2]
    exact lookupKey_setKey_ne a hd.1 k hd.2 (Ne.symm hk.1)

theorem lookupKey_spreadMerge_right (b : List (String × JSValue)) :
    ∀ (a : List (String × JSValue)) (k : String) (v : JSValue),
    (b.map Prod.fst).Nodup → lookupKey b k = some v →
    lookupKey (spreadMerge a b) k = some v := by
  induction b with
  | nil => intro a k v _ h; cases h
  | cons hd tl ih =>
    intro a k v hnd hl
    obtain ⟨k', v'⟩ := hd
    rw [show spreadMerge a ((k', v') :: tl) = spreadMerge (setKey a k' v') tl from rfl]
    simp only [List.map_cons, List.nodup_cons] at hnd
    by_cases h : k' = k
    · subst h
      have hv : v' = v := by simpa [lookupKey] using hl
      rw [lookupKey_spreadMerge_of_not_mem tl _ k' hnd.1, lookupKey_setKey_self, hv]
    · simp only [lookupKey, if_neg h] at hl
      exact ih _ k v hnd.2 hl

theorem incrementFold_ok_all (l : List (String × JSValue)) :
    ∀ acc, (∀ kv ∈ l, (parseFloat kv.2).isNaN = false) →
    incrementFold acc l = .ok (acc ++ l) := by
  induction l with
  | nil => intro acc _; simp [incrementFold]
  | cons hd tl ih =>
    intro acc h
    obtain ⟨k, v⟩ := hd
    have hv : (parseFloat v).isNaN = false := h (k, v) (by simp)
    rw [incrementFold, if_neg (by simp [hv]), ih _ (fun kv hkv => h kv (by simp [hkv]))]
    simp

theorem incrementFold_error_exists (l : List (String × JSValue)) :
    ∀ acc, (∃ kv ∈ l, (parseFloat kv.2).isNaN = true) →
    incrementFold acc l = .error (PARAMS.PROPERTY_VALUE ++ ERROR_MESSAGE.REQUIRED_DOUBLE) := by
  induction l with
  | nil => intro acc h; simp at h
  | cons hd tl ih =>
    intro acc h
    obtain ⟨k, v⟩ := hd
    by_cases hv : (parseFloat v).isNaN = true
    · rw [incrementFold, if_pos (by simp [hv])]
    · have hv' : (parseFloat v).isNaN = false := by simpa using hv
      rw [incrementFold, if_neg (by simp [hv'])]
      apply ih
      obtain ⟨kv, hkv, hnan⟩ := h
      rcases List.mem_cons.1 hkv with heq | htl
      · subst heq
        exact absurd hnan hv
      · exact ⟨kv, htl, hnan⟩

theorem incrementFold_ok_forward (l : List (String × JSValue)) :
    ∀ acc out, incrementFold acc l = .ok out →
    (∀ kv ∈ acc, (parseFloat kv.2).isNaN = false) →
    ∀ kv ∈ out, (parseFloat kv.2).isNaN = false := by
  induction l with
  | nil =>
    intro acc out h hacc
    simp [incrementFold] at h
    subst h
    exact hacc
  | cons hd tl ih =>
    intro acc out h hacc
    obtain ⟨k, v⟩ := hd
    by_cases hv : (parseFloat v).isNaN = true
    · rw [incrementFold, if_pos (by simp [hv])] at h
      cases h
    · have hv' : (parseFloat v).isNaN = false := by simpa using hv
      rw [incrementFold, if_neg (by simp [hv'])] at h
      refine ih _ _ h ?_
      intro kv hkv
      rcases List.mem_append.1 hkv with hkv | hkv
      · exact hacc kv hkv
      · simp at hkv
        subst hkv
        exact hv'

/-! ## Claim theorems -/

/-- C1, counterexample: `trackWithGroups` forwards an `undefined` groups
argument to the delegate unchanged — the `properties` bag is normalized to
`{}` but the `groups` bag is not, so a forwarded bag argument can be
`undefined`. -/
theorem trackWithGroups_forwards_undefined_groups :
    Mixpanel.trackWithGroups "t" (.str "e") .undefined .undefined =
      .ok ⟨"trackWithGroups", [.str "t", .str "e", .obj [], .undefined]⟩ := by
  rfl

/-- C1, amended: for `track`, `registerSuperProperties`,
`registerSuperPropertiesOnce`, `trackCharge` and the `properties` argument
of `trackWithGroups`, a caller-supplied `undefined` bag reaches the
delegate as the empty bag `{}`; the `groups` argument of `trackWithGroups`
is forwarded exactly as given (so it alone can be `undefined`). -/
theorem track_bags_normalized_groups_passthrough (token : String) (e g c : JSValue)
    (he : StringHelper.isValid e = true)
    (hc : (parseFloat c).isNaN = false) :
    Mixpanel.track token e .undefined = .ok ⟨"track", [.str token, e, .obj []]⟩ ∧
    Mixpanel.trackWithGroups token e .undefined g =
      .ok ⟨"trackWithGroups", [.str token, e, .obj [], g]⟩ ∧
    Mixpanel.registerSuperProperties token .undefined =
      .ok ⟨"registerSuperProperties", [.str token, .obj []]⟩ ∧
    Mixpanel.registerSuperPropertiesOnce token .undefined =
      .ok ⟨"registerSuperPropertiesOnce", [.str token, .obj []]⟩ ∧
    People.trackCharge token c .undefined =
      .ok ⟨"trackCharge", [.str token, c, .obj []]⟩ := by
  refine ⟨?_, ?_, ?_, ?_, ?_⟩ <;>
    simp [Mixpanel.track, Mixpanel.trackWithGroups, Mixpanel.registerSuperProperties,
      Mixpanel.registerSuperPropertiesOnce, People.trackCharge, he, hc,
      ObjectHelper.isValidOrUndefined, jsOr, truthy]

/-- Witness for C1's amended theorem at concrete inputs. -/
theorem track_bags_normalized_groups_passthrough_witness :
    Mixpanel.track "t" (.str "e") .undefined = .ok ⟨"track", [.str "t", .str "e", .obj []]⟩ ∧
    Mixpanel.trackWithGroups "t" (.str "e") .undefined (.obj [("k", .str "v")]) =
      .ok ⟨"trackWithGroups", [.str "t", .str "e", .obj [], .obj [("k", .str "v")]]⟩ ∧
    Mixpanel.registerSuperProperties "t" .undefined =
      .ok ⟨"registerSuperProperties", [.str "t", .obj []]⟩ ∧
    Mixpanel.registerSuperPropertiesOnce "t" .undefined =
      .ok ⟨"registerSuperPropertiesOnce", [.str "t", .obj []]⟩ ∧
    People.trackCharge "t" (.num (JSNum.finite 1)) .undefined =
      .ok ⟨"trackCharge", [.str "t", .num (JSNum.finite 1), .obj []]⟩ :=
  track_bags_normalized_groups_passthrough "t" (.str "e") (.obj [("k", .str "v")])
    (.num (JSNum.finite 1)) (by decide) (by decide)

/-- C6: `identify("")` and `identify(undefined)` fail with the
InvalidArgument message before any delegate call, while `identify` of a
non-blank string forwards the distinctId to the delegate unchanged. -/
theorem identify_validates_distinct_id (token s : String)
    (hs : StringHelper.isValid (.str s) = true) :
    Mixpanel.identify token (.str "") = .error "distinctId is not a valid string" ∧
    Mixpanel.identify token .undefined = .error "distinctId is not a valid string" ∧
    Mixpanel.identify token (.str s) = .ok ⟨"identify", [.str token, .str s]⟩ := by
  refine ⟨rfl, rfl, ?_⟩
  simp [Mixpanel.identify, hs]

/-- Witness for C6 at `distinctId = "user-123"`. -/
theorem identify_validates_distinct_id_witness :
    Mixpanel.identify "t" (.str "") = .error "distinctId is not a valid string" ∧
    Mixpanel.identify "t" .undefined = .error "distinctId is not a valid string" ∧
    Mixpanel.identify "t" (.str "user-123") = .ok ⟨"identify", [.str "t", .str "user-123"]⟩ :=
  identify_validates_distinct_id "t" "user-123" (by decide)

/-- C9: a falsy explicit amount (`0`, `null`, `""`) passed to
`increment(prop, by)` is replaced by the default `1` (`by = by || 1` runs
before validation), so the forwarded bag is `{prop: 1}`. -/
theorem increment_falsy_amount_defaults_to_one (token s : String)
    (hs : StringHelper.isValid (.str s) = true) :
    People.increment token (.str s) (.num (JSNum.finite 0)) =
      .ok ⟨"increment", [.str token, .obj [(s, .num (JSNum.finite 1))]]⟩ ∧
    People.increment token (.str s) .null =
      .ok ⟨"increment", [.str token, .obj [(s, .num (JSNum.finite 1))]]⟩ ∧
    People.increment token (.str s) (.str "") =
      .ok ⟨"increment", [.str token, .obj [(s, .num (JSNum.finite 1))]]⟩ := by
  have hobj : ObjectHelper.isValid (.str s) = false := rfl
  have h0 : jsOr (.num (JSNum.finite 0)) (.num (JSNum.finite 1)) = .num (JSNum.finite 1) := rfl
  have hnull : jsOr .null (.num (JSNum.finite 1)) = .num (JSNum.finite 1) := rfl
  have hemp : jsOr (.str "") (.num (JSNum.finite 1)) = .num (JSNum.finite 1) := rfl
  have hone : (parseFloat (.num (JSNum.finite 1))).isNaN = false := rfl
  refine ⟨?_, ?_, ?_⟩ <;>
    simp [People.increment, hobj, h0, hnull, hemp, hone, hs, JSValue.asKey]

/-- Witness for C9 at `prop = "count"`. -/
theorem increment_falsy_amount_defaults_to_one_witness :
    People.increment "t" (.str "count") (.num (JSNum.finite 0)) =
      .ok ⟨"increment", [.str "t", .obj [("count", .num (JSNum.finite 1))]]⟩ ∧
    People.increment "t" (.str "count") .null =
      .ok ⟨"increment", [.str "t", .obj [("count", .num (JSNum.finite 1))]]⟩ ∧
    People.increment "t" (.str "count") (.str "") =
      .ok ⟨"increment", [.str "t", .obj [("count", .num (JSNum.finite 1))]]⟩ :=
  increment_falsy_amount_defaults_to_one "t" "count" (by decide)

/-- C10: `null` passes the object-validity check (`typeof null` is
"object"), so `People.set(null)` and `People.setOnce(null)` do not raise;
`null || {}` replaces the bag by `{}` before the deep copy, and the second
argument is ignored. -/
theorem set_null_forwards_empty_bag (token : String) (to' : JSValue) :
    ObjectHelper.isValid .null = true ∧
    People.set token .null to' = .ok ⟨"set", [.str token, .obj []]⟩ ∧
    People.setOnce token .null to' = .ok ⟨"setOnce", [.str token, .obj []]⟩ :=
  ⟨rfl, rfl, rfl⟩

/-- C3, counterexample: `increment({a: Infinity})` does not fail even though
`Infinity` does not parse as a finite number — the `isNaN(parseFloat(val))`
check only rejects NaN parses, so the infinite value is forwarded. -/
theorem increment_accepts_infinite_value :
    People.increment "t" (.obj [("a", .num JSNum.posInf)]) .undefined =
      .ok ⟨"increment", [.str "t", .obj [("a", .num JSNum.posInf)]]⟩ ∧
    (parseFloat (.num JSNum.posInf)).isFinite = false :=
  ⟨rfl, rfl⟩

/-- C3, amended: `increment` is polymorphic — for an object argument it
fails with the InvalidArgument message exactly when some value's
`parseFloat` is NaN (not: when some value fails to parse as a *finite*
number) and otherwise forwards the object's key/value pairs; for a
non-blank string `prop` the amount defaults to `1` when absent and the bag
`{prop: by}` is forwarded. -/
theorem increment_polymorphic (token : String)
    (fsGood fsBad : List (String × JSValue)) (s : String) (by' x y : JSValue)
    (hgood : ∀ kv ∈ fsGood, (parseFloat kv.2).isNaN = false)
    (hbad : ∃ kv ∈ fsBad, (parseFloat kv.2).isNaN = true)
    (hs : StringHelper.isValid (.str s) = true)
    (hby : (parseFloat (jsOr by' (.num (JSNum.finite 1)))).isNaN = false) :
    People.increment token (.obj fsGood) x =
      .ok ⟨"increment", [.str token, .obj fsGood]⟩ ∧
    People.increment token (.obj fsBad) y =
      .error "property value is not a valid number" ∧
    People.increment token (.str s) .undefined =
      .ok ⟨"increment", [.str token, .obj [(s, .num (JSNum.finite 1))]]⟩ ∧
    People.increment token (.str s) by' =
      .ok ⟨"increment", [.str token, .obj [(s, jsOr by' (.num (JSNum.finite 1)))]]⟩ := by
  have hmsg : PARAMS.PROPERTY_VALUE ++ ERROR_MESSAGE.REQUIRED_DOUBLE =
      "property value is not a valid number" := rfl
  have hobjs : ObjectHelper.isValid (.str s) = false := rfl
  have hu : jsOr .undefined (.num (JSNum.finite 1)) = .num (JSNum.finite 1) := rfl
  have hone : (parseFloat (.num (JSNum.finite 1))).isNaN = false := rfl
  refine ⟨?_, ?_, ?_, ?_⟩
  · have hg : ObjectHelper.isValid (.obj fsGood) = true := rfl
    simp [People.increment, hg, jsObjectEntries, incrementFold_ok_all fsGood [] hgood]
  · have hb : ObjectHelper.isValid (.obj fsBad) = true := rfl
    simp [People.increment, hb, jsObjectEntries, incrementFold_error_exists fsBad [] hbad, hmsg]
  · simp [People.increment, hobjs, hu, hone, hs, JSValue.asKey]
  · simp [People.increment, hobjs, hby, hs, JSValue.asKey]

/-- Witness for C3: `increment({count: 5})` forwards the bag,
`increment({count: "abc"})` fails, `increment("count")` forwards
`{count: 1}` and `increment("count", -5)` forwards `{count: -5}`. -/
theorem increment_polymorphic_witness :
    People.increment "t" (.obj [("count", .num (JSNum.finite 5))]) .undefined =
      .ok ⟨"increment", [.str "t", .obj [("count", .num (JSNum.finite 5))]]⟩ ∧
    People.increment "t" (.obj [("count", .str "abc")]) .undefined =
      .error "property value is not a valid number" ∧
    People.increment "t" (.str "count") .undefined =
      .ok ⟨"increment", [.str "t", .obj [("count", .num (JSNum.finite 1))]]⟩ ∧
    People.increment "t" (.str "count") (.num (JSNum.finite (-5))) =
      .ok ⟨"increment", [.str "t", .obj [("count", .num (JSNum.finite (-5)))]]⟩ := by
  have hj : jsOr (.num (JSNum.finite (-5))) (.num (JSNum.finite 1)) =
      .num (JSNum.finite (-5)) := rfl
  have h := increment_polymorphic "t" [("count", .num (JSNum.finite 5))]
    [("count", .str "abc")] "count" (.num (JSNum.finite (-5))) .undefined .undefined
    (by decide) (by decide) (by decide) (by decide)
  rw [hj] at h
  exact h

/-- C5: for `People.append`, `People.union`, `People.remove` with a valid
name, the delegate call shape depends on the resolved platform — on iOS one
single-map argument, otherwise two separate arguments — while
`MixpanelGroup.remove` and `MixpanelGroup.union` always use the fixed
five-argument shape (token, groupKey, groupId, name, value). -/
theorem platform_conditional_packing (token osI osA : String) (gk gid name value : JSValue)
    (hn : StringHelper.isValid name = true)
    (hI : Helper.getDevicePlatform osI = DevicePlatform.iOS)
    (hA : Helper.getDevicePlatform osA ≠ DevicePlatform.iOS) :
    People.append token osI name value =
      .ok ⟨"append", [.str token, .obj [(name.asKey, value)]]⟩ ∧
    People.append token osA name value =
      .ok ⟨"append", [.str token, name, value]⟩ ∧
    People.union token osI name value =
      .ok ⟨"union", [.str token, .obj [(name.asKey, arrayWrap value)]]⟩ ∧
    People.union token osA name value =
      .ok ⟨"union", [.str token, name, arrayWrap value]⟩ ∧
    People.remove token osI name value =
      .ok ⟨"remove", [.str token, .obj [(name.asKey, value)]]⟩ ∧
    People.remove token osA name value =
      .ok ⟨"remove", [.str token, name, value]⟩ ∧
    MixpanelGroup.remove token gk gid name value =
      .ok ⟨"groupRemovePropertyValue", [.str token, gk, gid, name, value]⟩ ∧
    MixpanelGroup.union token gk gid name value =
      .ok ⟨"groupUnionProperty", [.str token, gk, gid, name, arrayWrap value]⟩ := by
  refine ⟨?_, ?_, ?_, ?_, ?_, ?_, ?_, ?_⟩ <;>
    simp [People.append, People.union, People.remove, MixpanelGroup.remove,
      MixpanelGroup.union, hn, hI, hA]

/-- Witness for C5 on the concrete platforms "ios" and "android". -/
theorem platform_conditional_packing_witness :
    People.append "t" "ios" (.str "tags") (.str "x") =
      .ok ⟨"append", [.str "t", .obj [("tags", .str "x")]]⟩ ∧
    People.append "t" "android" (.str "tags") (.str "x") =
      .ok ⟨"append", [.str "t", .str "tags", .str "x"]⟩ ∧
    People.union "t" "ios" (.str "tags") (.str "x") =
      .ok ⟨"union", [.str "t", .obj [("tags", arrayWrap (.str "x"))]]⟩ ∧
    People.union "t" "android" (.str "tags") (.str "x") =
      .ok ⟨"union", [.str "t", .str "tags", arrayWrap (.str "x")]⟩ ∧
    People.remove "t" "ios" (.str "tags") (.str "x") =
      .ok ⟨"remove", [.str "t", .obj [("tags", .str "x")]]⟩ ∧
    People.remove "t" "android" (.str "tags") (.str "x") =
      .ok ⟨"remove", [.str "t", .str "tags", .str "x"]⟩ ∧
    MixpanelGroup.remove "t" (.str "company") (.str "id1") (.str "tags") (.str "x") =
      .ok ⟨"groupRemovePropertyValue", [.str "t", .str "company", .str "id1", .str "tags", .str "x"]⟩ ∧
    MixpanelGroup.union "t" (.str "company") (.str "id1") (.str "tags") (.str "x") =
      .ok ⟨"groupUnionProperty", [.str "t", .str "company", .str "id1", .str "tags", arrayWrap (.str "x")]⟩ :=
  platform_conditional_packing "t" "ios" "android" (.str "company") (.str "id1")
    (.str "tags") (.str "x") (by decide) (by decide) (by decide)

/-- C8: `People.union` normalizes its value to an array before forwarding —
a non-array value is wrapped into a one-element array and an array is
forwarded unchanged — on both platform shapes. -/
theorem union_normalizes_value_to_array (token osI osA : String)
    (name v : JSValue) (xs : List JSValue)
    (hn : StringHelper.isValid name = true)
    (hv : isArray v = false)
    (hI : Helper.getDevicePlatform osI = DevicePlatform.iOS)
    (hA : Helper.getDevicePlatform osA ≠ DevicePlatform.iOS) :
    arrayWrap (.arr xs) = .arr xs ∧
    arrayWrap v = .arr [v] ∧
    People.union token osI name (.arr xs) =
      .ok ⟨"union", [.str token, .obj [(name.asKey, .arr xs)]]⟩ ∧
    People.union token osA name (.arr xs) =
      .ok ⟨"union", [.str token, name, .arr xs]⟩ ∧
    People.union token osI name v =
      .ok ⟨"union", [.str token, .obj [(name.asKey, .arr [v])]]⟩ ∧
    People.union token osA name v =
      .ok ⟨"union", [.str token, name, .arr [v]]⟩ := by
  have hw : arrayWrap v = .arr [v] := by simp [arrayWrap, hv]
  have ha : arrayWrap (.arr xs) = .arr xs := rfl
  refine ⟨ha, hw, ?_, ?_, ?_, ?_⟩ <;>
    simp [People.union, hn, hI, hA, hw, ha]

/-- Witness for C8: `union("tags", "x")` forwards `["x"]` and
`union("tags", ["x","y"])` forwards `["x","y"]` unchanged (shown on both
platforms). -/
theorem union_normalizes_value_to_array_witness :
    arrayWrap (.arr [.str "x", .str "y"]) = .arr [.str "x", .str "y"] ∧
    arrayWrap (.str "x") = .arr [.str "x"] ∧
    People.union "t" "ios" (.str "tags") (.arr [.str "x", .str "y"]) =
      .ok ⟨"union", [.str "t", .obj [("tags", .arr [.str "x", .str "y"])]]⟩ ∧
    People.union "t" "android" (.str "tags") (.arr [.str "x", .str "y"]) =
      .ok ⟨"union", [.str "t", .str "tags", .arr [.str "x", .str "y"]]⟩ ∧
    People.union "t" "ios" (.str "tags") (.str "x") =
      .ok ⟨"union", [.str "t", .obj [("tags", .arr [.str "x"])]]⟩ ∧
    People.union "t" "android" (.str "tags") (.str "x") =
      .ok ⟨"union", [.str "t", .str "tags", .arr [.str "x"]]⟩ :=
  union_normalizes_value_to_array "t" "ios" "android" (.str "tags") (.str "x")
    [.str "x", .str "y"] (by decide) (by decide) (by decide) (by decide)

/-- Shape of any successful `People.increment`: the forwarded bag's values
all have a non-NaN `parseFloat`. -/
theorem increment_ok_shape (token : String) (prop by' : JSValue) (call' : DelegateCall)
    (h : People.increment token prop by' = .ok call') :
    ∃ add, call' = ⟨"increment", [.str token, .obj add]⟩ ∧
      ∀ kv ∈ add, (parseFloat kv.2).isNaN = false := by
  by_cases hobj : ObjectHelper.isValid prop = true
  · rw [People.increment, if_pos hobj] at h
    cases hje : jsObjectEntries prop with
    | error e => simp only [hje, reduceCtorEq] at h
    | ok entries =>
      cases hf : incrementFold [] entries with
      | error e => simp only [hje, hf, reduceCtorEq] at h
      | ok add =>
        simp only [hje, hf, Except.ok.injEq] at h
        refine ⟨add, h.symm, ?_⟩
        exact incrementFold_ok_forward entries [] add hf (by intro kv hkv; simp at hkv)
  · have hobj' : ObjectHelper.isValid prop = false := by simpa using hobj
    rw [People.increment, if_neg (by simp [hobj'])] at h
    by_cases hby : (parseFloat (jsOr by' (.num (JSNum.finite 1)))).isNaN = true
    · rw [if_pos hby] at h
      simp at h
    · have hby' : (parseFloat (jsOr by' (.num (JSNum.finite 1)))).isNaN = false := by
        simpa using hby
      rw [if_neg (by simp [hby'])] at h
      by_cases hsv : StringHelper.isValid prop = true
      · rw [if_neg (by simp [hsv])] at h
        simp only [Except.ok.injEq] at h
        exact ⟨[(prop.asKey, jsOr by' (.num (JSNum.finite 1)))], h.symm, by simp [hby']⟩
      · have hsv' : StringHelper.isValid prop = false := by simpa using hsv
        rw [if_pos (by simp [hsv']), StringHelper.raiseError] at h
        simp at h

/-- C2, counterexample: `trackCharge(Infinity)` passes the
`isNaN(parseFloat(charge))` check and forwards `Infinity`, which is not a
finite number — the check only excludes NaN parses, not infinite ones. -/
theorem trackCharge_forwards_infinite_charge :
    People.trackCharge "t" (.num JSNum.posInf) .undefined =
      .ok ⟨"trackCharge", [.str "t", .num JSNum.posInf, .obj []]⟩ ∧
    isFiniteNumber (.num JSNum.posInf) = false :=
  ⟨rfl, rfl⟩

/-- C2, amended: every `trackCharge` call that reaches the delegate
forwards a charge whose `parseFloat` is not NaN, and every `increment` call
that reaches the delegate forwards a bag all of whose values have a
non-NaN `parseFloat` (the forwarded values need not be finite numbers:
infinities and numeric strings pass the check and are forwarded as given). -/
theorem forwarded_amounts_parse_non_nan (token : String) (charge props prop by' : JSValue)
    (call call' : DelegateCall)
    (h1 : People.trackCharge token charge props = .ok call)
    (h2 : People.increment token prop by' = .ok call') :
    (parseFloat charge).isNaN = false ∧
    ∃ add, call' = ⟨"increment", [.str token, .obj add]⟩ ∧
      ∀ kv ∈ add, (parseFloat kv.2).isNaN = false := by
  constructor
  · by_cases h : (parseFloat charge).isNaN = true
    · rw [People.trackCharge, if_pos h] at h1
      simp at h1
    · simpa using h
  · exact increment_ok_shape token prop by' call' h2

/-- Witness for C2's amended theorem: `trackCharge(9.99)` and
`increment("count")` both reach the delegate. -/
theorem forwarded_amounts_parse_non_nan_witness :
    (parseFloat (.num (JSNum.finite (999/100)))).isNaN = false ∧
    ∃ add, (⟨"increment", [.str "t", .obj [("count", .num (JSNum.finite 1))]]⟩ : DelegateCall) =
        ⟨"increment", [.str "t", .obj add]⟩ ∧
      ∀ kv ∈ add, (parseFloat kv.2).isNaN = false :=
  forwarded_amounts_parse_non_nan "t" (.num (JSNum.finite (999/100))) .undefined
    (.str "count") .undefined
    ⟨"trackCharge", [.str "t", .num (JSNum.finite (999/100)), .obj []]⟩
    ⟨"increment", [.str "t", .obj [("count", .num (JSNum.finite 1))]]⟩
    (by rfl) (by rfl)

/-- Resolution rule for the polymorphic `(prop, value)` pair of the
`set`/`setOnce` operations, written from the spec's description and amended
at `null`: an object-typed `prop` (which includes `null`) is replaced by
`{}` when falsy and deep-copied, with `value` ignored; a non-blank string
`prop` yields the bag `{prop: value}`; anything else is an InvalidArgument
failure. -/
def specResolveBag (prop value : JSValue) : Except String JSValue :=
  if ObjectHelper.isValid prop then
    .ok (jsonRoundTrip (jsOr prop (.obj [])))
  else if StringHelper.isValid prop then
    .ok (.obj [(prop.asKey, value)])
  else
    .error (PARAMS.PROP ++ ERROR_MESSAGE.INVALID_STRING)

/-- C4, counterexample: `null` is object-typed, yet `People.set(null)`
forwards `{}`, which is not the deep copy of `prop` (the deep copy of
`null` is `null`) — and no InvalidArgument is raised either. -/
theorem set_null_not_deep_copy :
    People.set "t" .null (.str "x") = .ok ⟨"set", [.str "t", .obj []]⟩ ∧
    ObjectHelper.isValid .null = true ∧
    jsonRoundTrip .null = .null ∧
    JSValue.obj [] ≠ .null :=
  ⟨rfl, rfl, rfl, fun h => JSValue.noConfusion h⟩

/-- C4, amended: `People.set`/`setOnce` and `MixpanelGroup.set`/`setOnce`
all resolve the polymorphic `(prop, value)` pair to the same bag: an
object-typed `prop` is deep-copied after `prop || {}` replaces a falsy
(null) `prop` by `{}`, with `value` ignored; a non-blank string yields
`{prop: value}`; otherwise InvalidArgument. In particular a truthy
object-typed `prop` forwards exactly its deep copy. -/
theorem set_resolves_bag_like_spec (token : String) (gk gid prop v p2 w : JSValue)
    (hobj : ObjectHelper.isValid p2 = true) (htr : truthy p2 = true) :
    People.set token prop v =
      (specResolveBag prop v).map (fun b => ⟨"set", [.str token, b]⟩) ∧
    People.setOnce token prop v =
      (specResolveBag prop v).map (fun b => ⟨"setOnce", [.str token, b]⟩) ∧
    MixpanelGroup.set token gk gid prop v =
      (specResolveBag prop v).map (fun b => ⟨"groupSetProperties", [.str token, gk, gid, b]⟩) ∧
    MixpanelGroup.setOnce token gk gid prop v =
      (specResolveBag prop v).map (fun b => ⟨"groupSetPropertyOnce", [.str token, gk, gid, b]⟩) ∧
    specResolveBag p2 w = .ok (jsonRoundTrip p2) := by
  have hlast : specResolveBag p2 w = .ok (jsonRoundTrip p2) := by
    rw [specResolveBag, if_pos hobj, jsOr, if_pos htr]
  refine ⟨?_, ?_, ?_, ?_, hlast⟩ <;>
  · by_cases ho : ObjectHelper.isValid prop = true
    · simp [People.set, People.setOnce, MixpanelGroup.set, MixpanelGroup.setOnce,
        specResolveBag, Except.map, ho]
    · have ho' : ObjectHelper.isValid prop = false := by simpa using ho
      by_cases hsv : StringHelper.isValid prop = true
      · simp [People.set, People.setOnce, MixpanelGroup.set, MixpanelGroup.setOnce,
          specResolveBag, Except.map, ho', hsv]
      · have hsv' : StringHelper.isValid prop = false := by simpa using hsv
        simp [People.set, People.setOnce, MixpanelGroup.set, MixpanelGroup.setOnce,
          specResolveBag, Except.map, ho', hsv', StringHelper.raiseError]

/-- Witness for C4: the string shape `set("age", 30)`, and a truthy
object-typed bag `{age: 30, city: "NYC"}` resolving to its deep copy. -/
theorem set_resolves_bag_like_spec_witness :
    People.set "t" (.str "age") (.num (JSNum.finite 30)) =
      (specResolveBag (.str "age") (.num (JSNum.finite 30))).map
        (fun b => ⟨"set", [.str "t", b]⟩) ∧
    People.setOnce "t" (.str "age") (.num (JSNum.finite 30)) =
      (specResolveBag (.str "age") (.num (JSNum.finite 30))).map
        (fun b => ⟨"setOnce", [.str "t", b]⟩) ∧
    MixpanelGroup.set "t" (.str "company") (.str "id1") (.str "age") (.num (JSNum.finite 30)) =
      (specResolveBag (.str "age") (.num (JSNum.finite 30))).map
        (fun b => ⟨"groupSetProperties", [.str "t", .str "company", .str "id1", b]⟩) ∧
    MixpanelGroup.setOnce "t" (.str "company") (.str "id1") (.str "age") (.num (JSNum.finite 30)) =
      (specResolveBag (.str "age") (.num (JSNum.finite 30))).map
        (fun b => ⟨"groupSetPropertyOnce", [.str "t", .str "company", .str "id1", b]⟩) ∧
    specResolveBag (.obj [("age", .num (JSNum.finite 30)), ("city", .str "NYC")]) (.str "ignored") =
      .ok (jsonRoundTrip (.obj [("age", .num (JSNum.finite 30)), ("city", .str "NYC")])) :=
  set_resolves_bag_like_spec "t" (.str "company") (.str "id1") (.str "age")
    (.num (JSNum.finite 30)) (.obj [("age", .num (JSNum.finite 30)), ("city", .str "NYC")])
    (.str "ignored") (by decide) (by decide)

/-- C7: `init` forwards `initialize(token, optOutDefault, merged)` where the
merged bag is the environment metadata — on which the fixed key
`$lib_version` has been set to the package version — spread first, with the
caller's super properties spread on top, so for every key of the caller's
bag the caller-supplied value wins. -/
theorem init_merges_caller_wins (token : String) (opt : JSValue)
    (sp md : List (String × JSValue)) (ver : JSValue) (k : String) (v : JSValue)
    (hnd : (sp.map Prod.fst).Nodup) (hk : lookupKey sp k = some v) :
    Mixpanel.init token opt sp md ver =
      ⟨"initialize", [.str token, opt, .obj (spreadMerge (Helper.getMetaData md ver) sp)]⟩ ∧
    lookupKey (Helper.getMetaData md ver) "$lib_version" = some ver ∧
    lookupKey (spreadMerge (Helper.getMetaData md ver) sp) k = some v := by
  refine ⟨rfl, ?_, ?_⟩
  · exact lookupKey_setKey_self _ "$lib_version" ver
  · exact lookupKey_spreadMerge_right sp _ k v hnd hk

/-- Witness for C7: the caller's `$lib_version` overrides the one set from
the package metadata. -/
theorem init_merges_caller_wins_witness :
    Mixpanel.init "t" (.bool false) [("$lib_version", .str "mine"), ("a", .num (JSNum.finite 1))]
        [("$os", .str "react-native")] (.str "1.2.3") =
      ⟨"initialize", [.str "t", .bool false,
        .obj (spreadMerge
          (Helper.getMetaData [("$os", .str "react-native")] (.str "1.2.3"))
          [("$lib_version", .str "mine"), ("a", .num (JSNum.finite 1))])]⟩ ∧
    lookupKey (Helper.getMetaData [("$os", .str "react-native")] (.str "1.2.3"))
        "$lib_version" = some (.str "1.2.3") ∧
    lookupKey (spreadMerge
        (Helper.getMetaData [("$os", .str "react-native")] (.str "1.2.3"))
        [("$lib_version", .str "mine"), ("a", .num (JSNum.finite 1))])
      "$lib_version" = some (.str "mine") :=
  init_merges_caller_wins "t" (.bool false)
    [("$lib_version", .str "mine"), ("a", .num (JSNum.finite 1))]
    [("$os", .str "react-native")] (.str "1.2.3") "$lib_version" (.str "mine")
    (by decide) (by rfl)
